import Mathlib

/-!
Shallow embedding of `hacheck/checker.py` (the protocol health-check module).

Modelling conventions:
* A check result is a pair `(statusCode, reason)` with `statusCode : Nat` and
  `reason : String`, mirroring the `(code, message)` tuples of the source.
* Wall-clock time is modelled in centiseconds (`Nat`); the module constant
  `TIMEOUT = 10` seconds becomes `TIMEOUT_cs = 1000` centiseconds.  Python
  float formatting is modelled exactly on these integral values:
  `fmtDot2` models the format `%.2f` and `fmtW2f6` models the format `%2f`
  (width 2, default 6 decimals), both applied to a centisecond count;
  `fmtF6` models the format `%f` applied to an integral timestamp.
* Each network primitive (connect, read_until, write, HTTP fetch, MySQL
  handshake) is driven by an environment value describing the behaviour of
  the peer or the OS at that step: completion after some elapsed time with a
  value, an error, or never completing at all (`hang`).  The checker
  functions are then total Lean functions of those environments.
* A whole-check run either returns a result, lets an exception escape the
  checker body (the coroutine future then carries an exception, not a
  result tuple), or diverges (the coroutine never completes).
-/

namespace Hacheck

/-- CheckResult: `(statusCode, reason)` as returned by every checker. -/
abbrev CheckResult := Nat × String

/-- Module constant `TIMEOUT = 10` (seconds), `checker.py` line 17. -/
def TIMEOUT : Nat := 10

/-- The timeout budget in the model's centisecond clock. -/
def TIMEOUT_cs : Nat := TIMEOUT * 100

/-- Two-digit zero-padding for the fractional part of a centisecond count. -/
def pad2 (n : Nat) : String :=
  if n < 10 then "0" ++ toString n else toString n

/-- Models Python `%.2f` applied to a time of `t` centiseconds. -/
def fmtDot2 (t : Nat) : String :=
  toString (t / 100) ++ "." ++ pad2 (t % 100)

/-- Models Python `%2f` (width 2, default precision 6, as written — without a
dot — in `checker.py` lines 113 and 173) applied to `t` centiseconds. -/
def fmtW2f6 (t : Nat) : String :=
  toString (t / 100) ++ "." ++ pad2 (t % 100) ++ "0000"

/-- Models Python `%f` applied to an integral timestamp. -/
def fmtF6 (n : Nat) : String :=
  toString n ++ ".000000"

/-- Python whitespace characters recognised by `str.split()` with no
arguments. -/
def isPySpace (c : Char) : Bool :=
  c = ' ' || c = '\t' || c = '\n' || c = '\r' || c = Char.ofNat 11 || c = Char.ofNat 12

/-- Worker for `pySplit`: walks the character list, accumulating the current
token in reverse. -/
def pySplitAux : List Char → List Char → List String
  | [], cur => if cur.isEmpty then [] else [String.mk cur.reverse]
  | c :: rest, cur =>
    if isPySpace c then
      if cur.isEmpty then pySplitAux rest []
      else String.mk cur.reverse :: pySplitAux rest []
    else pySplitAux rest (c :: cur)

/-- Models Python `str.split()` with no arguments: split on runs of
whitespace, discarding empty tokens. -/
def pySplit (s : String) : List String := pySplitAux s.data []

/-- A single-quote character, used by the Python `repr` of a bytestring. -/
def sq : String := String.singleton (Char.ofNat 39)

/-- Escape of one character inside a Python bytes `repr` (the characters that
occur in the checks modelled here: CR, LF, backslash and the quote). -/
def pyEscChar (c : Char) : String :=
  if c = '\r' then "\\r"
  else if c = '\n' then "\\n"
  else if c = '\\' then "\\\\"
  else if c = Char.ofNat 39 then "\\" ++ sq
  else String.singleton c

/-- Models Python 3 `repr` of a bytes value holding the given text, as used
by the format `{0!r}` in the SMTP checker (`checker.py` line 162). -/
def pyByteRepr (s : String) : String :=
  "b" ++ sq ++ String.join (s.data.map pyEscChar) ++ sq

/-- Configuration collaborator (`config.config`): the fields read by
`checker.py`.  `service_name_header` and the MySQL credentials are optional
and may also be falsy (empty) strings, matching Python truthiness tests. -/
structure Config where
  http_headers_to_copy : List String
  service_name_header : Option String
  mysql_username : Option String
  mysql_password : Option String

/-- Exceptions that can escape a checker body in the model. -/
inductive Exn where
  /-- `IndexError` from `split()[0]` on a token-less line. -/
  | indexError
  /-- A timeout signalled by the external MySQL client collaborator. -/
  | mysqlTimeout
  deriving DecidableEq

/-- The observable completion of one whole check invocation. -/
inductive Outcome where
  /-- The coroutine resolved with a `(status, reason)` tuple. -/
  | result (r : CheckResult)
  /-- An exception escaped the checker body; the caller gets it, not a tuple. -/
  | escape (e : Exn)
  /-- The coroutine never completes. -/
  | diverge
  deriving DecidableEq

/-- Spool collaborator reply: the `extra_info` mapping returned by
`spool.is_up` (spec: MaintenanceState).  `creation` and `expiration` are
timestamps; `reason` is absent or a (possibly empty) string. -/
structure SpoolInfo where
  service : String
  creation : Option Nat
  expiration : Option Nat
  reason : Option String

/-- Embedding of `check_spool` (`checker.py` lines 21-34): builds the down
message by successive conditional appends, exactly as the source does.  The
`service_name` argument is, as in the source, not used in the message (the
collaborator's `service` field is). -/
def check_spool (service_name : String) (up : Bool) (extra_info : SpoolInfo) : CheckResult :=
  if up then
    (200, (extra_info.reason).getD (""))
  else
    let s0 := "Service " ++ extra_info.service ++ " in down state"
    let s1 := match extra_info.creation with
      | some c => s0 ++ " since " ++ fmtF6 c
      | none => s0
    let s2 := match extra_info.expiration with
      | some e => s1 ++ " until " ++ fmtF6 e
      | none => s1
    let s3 := match extra_info.reason with
      | some r => if r = "" then s2 else s2 ++ ": " ++ r
      | none => s2
    (503, s3)

/-- An OS-level socket error (`socket.error`): the SMTP checker prints its
`errno`, the TCP checker prints `str` of the whole exception. -/
structure SockErr where
  errno : Int
  msg : String
  deriving DecidableEq

/-- Behaviour of one `stream.connect` attempt, as seen by the checker: it
completes successfully after `t` centiseconds, raises a `socket.error`
after `t` centiseconds, or never completes. -/
inductive ConnOutcome where
  | ok (t : Nat)
  | sockErr (t : Nat) (e : SockErr)
  | hang
  deriving DecidableEq

/-- Behaviour of one stream read or write: completion with a value after `t`
centiseconds, `StreamClosedError`, `socket.error`, or never completing. -/
inductive StepOutcome (α : Type) where
  | ok (t : Nat) (v : α)
  | closed (t : Nat)
  | sockErr (t : Nat) (e : SockErr)
  | hang
  deriving DecidableEq

/-- Result of a checker body before the `finally` clause runs: a
`gen.Return` value (or fall-through return), an escaping exception, or
divergence. -/
inductive PreOutcome where
  | ret (r : CheckResult)
  | exn (e : Exn)
  | diverge
  deriving DecidableEq

/-- The `finally` clause of the TCP and SMTP checkers: it closes the stream
(when one was assigned) and lets the pending return value or exception
continue.  A diverging body never reaches the `finally`.  The produced pair
records the outcome and whether the stream ended up closed. -/
def applyFinally : PreOutcome → Outcome × Bool
  | .ret r => (.result r, true)
  | .exn e => (.escape e, true)
  | .diverge => (.diverge, false)

/-- Message produced when `tornado.gen.with_timeout` fires: the elapsed time
read back by the handler is the full budget. -/
def timeoutMsg : String :=
  "Connection timed out after " ++ fmtDot2 TIMEOUT_cs ++ "s"

/-- Environment of one TCP check: the behaviour of the single connect. -/
structure TcpEnv where
  connect : ConnOutcome
  deriving DecidableEq

/-- Body of `check_tcp` (`checker.py` lines 93-123): connect wrapped in
`with_timeout(TIMEOUT)`, with `except TimeoutError` and
`except socket.error` handlers, then the success return. -/
def tcpBody (env : TcpEnv) : PreOutcome :=
  match env.connect with
  | .hang => .ret (503, timeoutMsg)
  | .ok t =>
    if TIMEOUT_cs < t then .ret (503, timeoutMsg)
    else .ret (200, "Connected in " ++ fmtDot2 t ++ "s")
  | .sockErr t e =>
    if TIMEOUT_cs < t then .ret (503, timeoutMsg)
    else .ret (503, "Unexpected error " ++ e.msg ++ " after " ++ fmtW2f6 t ++ "s")

/-- Embedding of `check_tcp`: the body followed by the `finally` clause. -/
def check_tcp (env : TcpEnv) : Outcome × Bool :=
  applyFinally (tcpBody env)

/-- Environment of one SMTP check: behaviour of connect, greeting read,
QUIT write and QUIT-response read.  Read steps carry the decoded line
(including its CRLF terminator), as returned by `read_until`. -/
structure SmtpEnv where
  connect : ConnOutcome
  greeting : StepOutcome String
  quitWrite : StepOutcome Unit
  quitResp : StepOutcome String
  deriving DecidableEq

/-- The SMTP socket-error message (`checker.py` line 173): prints the errno
with `%s` and the elapsed time with `%2f`. -/
def smtpSockErrMsg (errno : Int) (t : Nat) : String :=
  "Unexpected socket error " ++ toString errno ++ " after " ++ fmtW2f6 t ++ "s"

/-- The SMTP peer-closed message (`checker.py` line 169). -/
def peerClosedMsg : String := "Peer unexpectedly closed connection"

/-- Body of `check_smtp` (`checker.py` lines 147-174).  Only the connect is
wrapped in `with_timeout`; the greeting read, the QUIT write and the QUIT
response read are bare yields, so when one of them never completes the
whole coroutine diverges.  `split()[0]` on a token-less response raises an
`IndexError` which no `except` clause catches. -/
def smtpBody (env : SmtpEnv) : PreOutcome :=
  match env.connect with
  | .hang => .ret (503, timeoutMsg)
  | .sockErr t e =>
    if TIMEOUT_cs < t then .ret (503, timeoutMsg)
    else .ret (503, smtpSockErrMsg e.errno t)
  | .ok t1 =>
    if TIMEOUT_cs < t1 then .ret (503, timeoutMsg)
    else
      match env.greeting with
      | .hang => .diverge
      | .closed _ => .ret (503, peerClosedMsg)
      | .sockErr t2 e => .ret (503, smtpSockErrMsg e.errno (t1 + t2))
      | .ok t2 _ =>
        match env.quitWrite with
        | .hang => .diverge
        | .closed _ => .ret (503, peerClosedMsg)
        | .sockErr t3 e => .ret (503, smtpSockErrMsg e.errno (t1 + t2 + t3))
        | .ok t3 _ =>
          match env.quitResp with
          | .hang => .diverge
          | .closed _ => .ret (503, peerClosedMsg)
          | .sockErr t4 e => .ret (503, smtpSockErrMsg e.errno (t1 + t2 + t3 + t4))
          | .ok t4 resp =>
            match pySplit resp with
            | [] => .exn .indexError
            | tok :: _ =>
              if tok = "221" then
                .ret (200, "Connected in " ++ fmtDot2 (t1 + t2 + t3 + t4) ++ "s")
              else
                .ret (503, "Got unexpected QUIT response " ++ pyByteRepr resp)

/-- Embedding of `check_smtp`: the body followed by the `finally` clause. -/
def check_smtp (env : SmtpEnv) : Outcome × Bool :=
  applyFinally (smtpBody env)

/-- Modelled from the spec: the MySQL protocol-client collaborator
(`hacheck/mysql.py`, not among the shown sources).  Its
`connect(username, password)` either completes with a response object
carrying an `OK` flag and a string rendering, or times out (the spec only
says the call is timeout-bounded; a timeout is modelled as the collaborator
raising, since `checker.py` has no handler that could turn it into a
tuple).  `quit()` is modelled as completing, per the spec's
`quit() -> void, timeout-bounded`. -/
inductive MysqlConnectOutcome where
  | response (ok : Bool) (detail : String)
  | timeout
  deriving DecidableEq

/-- Environment of one MySQL check. -/
structure MysqlEnv where
  connect : MysqlConnectOutcome
  deriving DecidableEq

/-- Embedding of `check_mysql` (`checker.py` lines 128-142).  The second
component records whether a `MySQLClient` was constructed and a connect
attempted.  Note the source's literal message text, and that its local
helper `timed_out` (lines 134-135) is never called by anything, so no path
of this function can produce a 503. -/
def check_mysql (cfg : Config) (env : MysqlEnv) : Outcome × Bool :=
  match cfg.mysql_username, cfg.mysql_password with
  | some _, some _ =>
    match env.connect with
    | .timeout => (.escape .mysqlTimeout, true)
    | .response ok detail =>
      if ok then (.result (200, "MySQL connect response: " ++ detail), true)
      else (.result (500, "MySQL sez " ++ detail), true)
  | _, _ => (.result (500, "No MySQL username/pasword in config file"), false)

/-- Association-list lookup, modelling a Python dict read (`d[k]` /
`k in d`). -/
def alookup {α : Type} : List (String × α) → String → Option α
  | [], _ => none
  | (k, v) :: rest, key => if k = key then some v else alookup rest key

/-- Association-list update, modelling a Python dict write `d[k] = v`
(replaces in place, or appends a new entry). -/
def aset {α : Type} : List (String × α) → String → α → List (String × α)
  | [], key, val => [(key, val)]
  | (k, v) :: rest, key, val =>
    if k = key then (k, val) :: rest else (k, v) :: aset rest key val

/-- Models the Python test `check_path.startswith(going by one slash)`:
whether the first character is a slash. -/
def startsWithSlash (s : String) : Bool :=
  match s.data with
  | [] => false
  | c :: _ => c = '/'

/-- The copy loop of `check_http_https` (`checker.py` lines 60-62):
`for header in config.config[http_headers_to_copy]: if header in headers:
headers_out[header] = headers[header]`, written as structural recursion
over the allow-list. -/
def copyHeaders (headers : List (String × String)) :
    List String → List (String × String) → List (String × String)
  | [], acc => acc
  | h :: t, acc =>
    copyHeaders headers t
      (match alookup headers h with
       | some v => aset acc h v
       | none => acc)

/-- The outbound header construction of `check_http_https` (`checker.py`
lines 59-64): start from the User-Agent entry, copy the allow-listed caller
headers, then overwrite the configured service-name header (a falsy — absent
or empty — configured name is skipped, per Python truthiness). -/
def headers_out (cfg : Config) (ver service_name : String)
    (headers : List (String × String)) : List (String × String) :=
  let base := [("User-Agent", "hastate " ++ ver)]
  let copied := copyHeaders headers cfg.http_headers_to_copy base
  match cfg.service_name_header with
  | some snh => if snh = "" then copied else aset copied snh service_name
  | none => copied

/-- The `tornado.httpclient.HTTPRequest` value built by `check_http_https`
(`checker.py` lines 66-73). -/
structure HTTPRequest where
  url : String
  method : String
  headers : List (String × String)
  request_timeout : Nat
  follow_redirects : Bool
  validate_cert : Bool

/-- Behaviour of the `http_client.fetch` call: a response, an `HTTPError`
(whose attached response body may be absent), or any other exception. -/
inductive FetchOutcome where
  | response (code : Nat) (body : String)
  | httpError (code : Nat) (body : Option String)
  | failure (emsg : String)
  deriving DecidableEq

/-- Embedding of `check_http_https` (`checker.py` lines 51-88): returns the
request that was sent together with the `(code, reason)` result.  `ver`
stands for the package `__version__` string. -/
def check_http_https (cfg : Config) (ver service_name : String) (port : Nat)
    (check_path query_params : String) (headers : List (String × String))
    (ssl : Bool) (fetch : FetchOutcome) : HTTPRequest × CheckResult :=
  let method := if ssl then "https" else "http"
  let cp := if startsWithSlash check_path then check_path else "/" ++ check_path
  let hout := headers_out cfg ver service_name headers
  let path := method ++ "://127.0.0.1:" ++ toString port ++ cp
    ++ (if query_params = "" then "" else "?" ++ query_params)
  let req : HTTPRequest :=
    { url := path, method := "GET", headers := hout,
      request_timeout := TIMEOUT, follow_redirects := false,
      validate_cert := false }
  let res : CheckResult :=
    match fetch with
    | .response code body => (code, body)
    | .httpError code body => (code, body.getD (""))
    | .failure emsg => (599, "Unhandled exception " ++ emsg)
  (req, res)

/-- A cache entry: the stored result and its creation timestamp (spec:
CacheEntry). -/
abbrev CacheEntries := List (String × (CheckResult × Nat))

/-- Modelled from the spec: the result cache (`cache.cached` from
`hacheck/cache.py`, not among the shown sources), sequential view of
`get_or_compute(key, computeFn)`.  A present, unexpired entry is returned
without invoking the computation; otherwise the computation runs and a
successful result is stored with a fresh timestamp (a failure propagates
and is not cached).  In-flight coalescing is a concurrency aspect outside
this sequential model.  The returned flag records whether the underlying
computation was invoked. -/
def get_or_compute (ttl now : Nat) (entries : CacheEntries) (key : String)
    (compute : Unit → Outcome) : Outcome × CacheEntries × Bool :=
  let hit : Option CheckResult :=
    match alookup entries key with
    | some (r, created) => if now < created + ttl then some r else none
    | none => none
  match hit with
  | some r => (.result r, entries, false)
  | none =>
    match compute () with
    | .result r => (.result r, aset entries key (r, now), true)
    | o => (o, entries, true)

/-- The decorated `check_http` (`checker.py` lines 38-41): the HTTP probe
wrapped by `cache.cached`. -/
def check_http_cached (cfg : Config) (ver service_name : String) (port : Nat)
    (check_path query_params : String) (headers : List (String × String))
    (fetch : FetchOutcome) (ttl now : Nat) (entries : CacheEntries)
    (key : String) : Outcome × CacheEntries × Bool :=
  get_or_compute ttl now entries key
    (fun _ => .result (check_http_https cfg ver service_name port check_path
      query_params headers false fetch).2)

/-- The decorated `check_https` (`checker.py` lines 45-48). -/
def check_https_cached (cfg : Config) (ver service_name : String) (port : Nat)
    (check_path query_params : String) (headers : List (String × String))
    (fetch : FetchOutcome) (ttl now : Nat) (entries : CacheEntries)
    (key : String) : Outcome × CacheEntries × Bool :=
  get_or_compute ttl now entries key
    (fun _ => .result (check_http_https cfg ver service_name port check_path
      query_params headers true fetch).2)

/-- The decorated `check_tcp` (`checker.py` line 91): wrapped by
`cache.cached`. -/
def check_tcp_cached (env : TcpEnv) (ttl now : Nat) (entries : CacheEntries)
    (key : String) : Outcome × CacheEntries × Bool :=
  get_or_compute ttl now entries key (fun _ => (check_tcp env).1)

/-- The decorated `check_mysql` (`checker.py` line 126): wrapped by
`cache.cached`. -/
def check_mysql_cached (cfg : Config) (env : MysqlEnv) (ttl now : Nat)
    (entries : CacheEntries) (key : String) : Outcome × CacheEntries × Bool :=
  get_or_compute ttl now entries key (fun _ => (check_mysql cfg env).1)

/-- The decorated `check_smtp` (`checker.py` line 145): wrapped by
`cache.cached`. -/
def check_smtp_cached (env : SmtpEnv) (ttl now : Nat) (entries : CacheEntries)
    (key : String) : Outcome × CacheEntries × Bool :=
  get_or_compute ttl now entries key (fun _ => (check_smtp env).1)

/-- The undecorated `check_spool` entry point (`checker.py` lines 20-22: the
comment says `Do not cache spool checks` and no `cache.cached` decorator is
applied): every invocation runs the probe afresh against the current spool
state and neither reads nor writes the cache.  Presented with the same
signature shape as the cached entry points for comparison. -/
def check_spool_entry (ttl now : Nat) (entries : CacheEntries) (key : String)
    (service_name : String) (up : Bool) (extra_info : SpoolInfo) :
    Outcome × CacheEntries × Bool :=
  (.result (check_spool service_name up extra_info), entries, true)

/-- Spec-side classifier of the TCP check, following the words of the spec:
connect succeeds within the timeout, timeout elapses before connect
completes, or an OS-level connect error occurs; `elapsed` is measured from
just before the connect attempt and appears in every message.  This
definition is written from the spec for the refinement comparison with
`check_tcp`. -/
def tcpSpecResult (env : TcpEnv) : CheckResult :=
  match env.connect with
  | .ok t =>
    if t ≤ TIMEOUT_cs then (200, "Connected in " ++ fmtDot2 t ++ "s")
    else (503, "Connection timed out after " ++ fmtDot2 TIMEOUT_cs ++ "s")
  | .sockErr t e =>
    if t ≤ TIMEOUT_cs then
      (503, "Unexpected error " ++ e.msg ++ " after " ++ fmtW2f6 t ++ "s")
    else (503, "Connection timed out after " ++ fmtDot2 TIMEOUT_cs ++ "s")
  | .hang => (503, "Connection timed out after " ++ fmtDot2 TIMEOUT_cs ++ "s")

/-- Whether a connect attempt runs past the timeout budget, so that
`tornado.gen.with_timeout` fires. -/
def connTimesOut : ConnOutcome → Bool
  | .hang => true
  | .ok t => decide (TIMEOUT_cs < t)
  | .sockErr t _ => decide (TIMEOUT_cs < t)

/-- Lookup after an update: the updated key reads back the new value, any
other key is unaffected. -/
theorem alookup_aset {α : Type} (l : List (String × α)) (k k' : String) (v : α) :
    alookup (aset l k v) k' = if k = k' then some v else alookup l k' := by
  induction l with
  | nil => simp [aset, alookup]
  | cons hd tl ih =>
    obtain ⟨pk, pv⟩ := hd
    simp only [aset]
    by_cases hpk : pk = k
    · subst hpk
      simp only [if_pos rfl, alookup]
      by_cases hk' : pk = k'
      · subst hk'; simp
      · simp [alookup, hk']
    · simp only [if_neg hpk, alookup]
      by_cases hk' : pk = k'
      · subst hk'
        rw [if_pos rfl, if_neg (fun h => hpk h.symm)]
        simp [alookup]
      · rw [if_neg hk', ih]
        by_cases h : k = k' <;> simp [alookup, h, hk']

/-- An update never removes a key that was present. -/
theorem alookup_aset_isSome {α : Type} (l : List (String × α)) (k k' : String)
    (v : α) (h : (alookup l k').isSome = true) :
    (alookup (aset l k v) k').isSome = true := by
  rw [alookup_aset]
  by_cases hk : k = k' <;> simp [hk, h]

/-- Every binding present after the copy loop was either already in the
accumulator or was copied from the caller headers under a name of the
allow-list. -/
theorem copyHeaders_lookup (hdrs : List (String × String)) (hs : List String)
    (acc : List (String × String)) (k : String) (v : String)
    (h : alookup (copyHeaders hdrs hs acc) k = some v) :
    alookup acc k = some v ∨ (k ∈ hs ∧ alookup hdrs k = some v) := by
  induction hs generalizing acc with
  | nil => exact Or.inl h
  | cons hd t ih =>
    simp only [copyHeaders] at h
    rcases ih _ h with hacc | ⟨hmem, hcaller⟩
    · cases hcase : alookup hdrs hd with
      | none => rw [hcase] at hacc; exact Or.inl hacc
      | some w =>
        rw [hcase, alookup_aset] at hacc
        by_cases hk : hd = k
        · subst hk
          simp at hacc
          subst hacc
          exact Or.inr ⟨List.mem_cons_self _ _, hcase⟩
        · simp [hk] at hacc
          exact Or.inl hacc
    · exact Or.inr ⟨List.mem_cons_of_mem _ hmem, hcaller⟩

/-- The copy loop never removes a key that was present. -/
theorem copyHeaders_isSome (hdrs : List (String × String)) (hs : List String)
    (acc : List (String × String)) (k : String)
    (h : (alookup acc k).isSome = true) :
    (alookup (copyHeaders hdrs hs acc) k).isSome = true := by
  induction hs generalizing acc with
  | nil => exact h
  | cons hd t ih =>
    simp only [copyHeaders]
    cases hcase : alookup hdrs hd with
    | none => exact ih _ h
    | some w => exact ih _ (alookup_aset_isSome _ _ _ _ h)

/-- C1: evaluation at the failing input.  The claim says every checker
returns a `(statusCode, reason)` tuple for every input, and in particular
that the SMTP checker does so when the QUIT response line is empty or has
no whitespace-separated token.  On the code, when the peer answers QUIT
with the bare line CRLF, `quit_response.decode.split()[0]` raises an
`IndexError` that no `except` clause in `check_smtp` catches, so the
exception escapes the checker instead of a result tuple being returned. -/
theorem smtp_tokenless_quit_escapes :
    check_smtp { connect := .ok 1, greeting := .ok 1 ("220 ok\r\n"),
                 quitWrite := .ok 1 (), quitResp := .ok 1 ("\r\n") }
      = (.escape .indexError, true) := by decide

/-- C2: evaluation at the failing input.  With no MySQL credentials
configured, `check_mysql` does return status 500 without any connect
attempt (second component `false`), but the reason string in the code is
`No MySQL username/pasword in config file` — `password` is misspelled — not
the exact string the claim states. -/
theorem mysql_missing_credentials_eval :
    check_mysql
      { http_headers_to_copy := [], service_name_header := none,
        mysql_username := none, mysql_password := none }
      { connect := .response true ("") }
      = (.result (500, "No MySQL username/pasword in config file"), false) := by
  decide

/-- C4: evaluation at the failing input.  With credentials configured and a
handshake that times out, `check_mysql` does not return
`(503, MySQL timed out after ...)`: the local helper `timed_out` that would
build that tuple is defined but never called, and `check_mysql` has no
`try/except`, so the collaborator's timeout escapes the checker as an
exception. -/
theorem mysql_timeout_escapes :
    check_mysql
      { http_headers_to_copy := [], service_name_header := none,
        mysql_username := some ("user"), mysql_password := some ("pass") }
      { connect := .timeout }
      = (.escape .mysqlTimeout, true) := by decide

/-- C3, counterexample: a peer that accepts the connection promptly and then
never sends its greeting.  The claim says the single timeout budget covers
the whole connect-plus-handshake, so the check cannot hang past the
deadline; on the code, `with_timeout` wraps only the connect, the greeting
`read_until` is a bare yield, and the whole coroutine never completes
(outcome `diverge`, stream never closed) — no `(503, ...)` result is ever
produced at this input. -/
theorem smtp_silent_peer_never_completes :
    check_smtp { connect := .ok 1, greeting := .hang,
                 quitWrite := .hang, quitResp := .hang }
      = (.diverge, false) := by decide

/-- C3, amended: the timeout budget covers only the connect phase of the
SMTP check.  A timeout firing during connect yields
`(503, Connection timed out after <elapsed>s)`; the subsequent
reads/writes are not covered by any timeout, so a peer that accepts the
connection and then stays silent makes the check hang indefinitely. -/
theorem smtp_timeout_covers_connect_only :
    (∀ (c : ConnOutcome) (g : StepOutcome String) (w : StepOutcome Unit)
        (q : StepOutcome String),
      connTimesOut c = true →
      check_smtp { connect := c, greeting := g, quitWrite := w, quitResp := q }
        = (.result (503, timeoutMsg), true))
    ∧ (∀ (t : Nat) (w : StepOutcome Unit) (q : StepOutcome String),
      t ≤ TIMEOUT_cs →
      check_smtp { connect := .ok t, greeting := .hang, quitWrite := w, quitResp := q }
        = (.diverge, false)) := by
  constructor
  · intro c g w q hc
    cases c with
    | hang => rfl
    | ok t =>
      have ht : TIMEOUT_cs < t := by simpa [connTimesOut] using hc
      simp [check_smtp, smtpBody, applyFinally, if_pos ht]
    | sockErr t e =>
      have ht : TIMEOUT_cs < t := by simpa [connTimesOut] using hc
      simp [check_smtp, smtpBody, applyFinally, if_pos ht]
  · intro t w q ht
    have ht' : ¬ TIMEOUT_cs < t := Nat.not_lt.mpr ht
    simp [check_smtp, smtpBody, applyFinally, if_neg ht']

/-- Witness for the amended C3 theorem: a connect that hangs is reported as
a 503 timeout, and a connect that succeeds after one centisecond followed
by a silent peer diverges. -/
theorem smtp_timeout_covers_connect_only_witness :
    (check_smtp ⟨.hang, .hang, .hang, .hang⟩ = (.result (503, timeoutMsg), true))
    ∧ (check_smtp ⟨.ok 1, .hang, .ok 1 (), .ok 1 ("221 bye\r\n")⟩ = (.diverge, false)) :=
  ⟨smtp_timeout_covers_connect_only.1 .hang .hang (.hang) .hang (by decide),
   smtp_timeout_covers_connect_only.2 1 (.ok 1 ()) (.ok 1 ("221 bye\r\n")) (by decide)⟩

/-- C6: the TCP check always completes, closes its stream, and its result is
exactly the spec's three-way classification of the connect attempt:
success within the timeout gives `(200, Connected in <elapsed>s)`, running
past the budget gives `(503, Connection timed out after <elapsed>s)`, and
an OS-level connect error gives
`(503, Unexpected error <err> after <elapsed>s)`, the elapsed time
appearing in every message. -/
theorem tcp_exactly_three_outcomes (env : TcpEnv) :
    check_tcp env = (.result (tcpSpecResult env), true) := by
  obtain ⟨c⟩ := env
  cases c <;>
    simp only [check_tcp, tcpBody, tcpSpecResult, applyFinally] <;>
    first
      | rfl
      | (split_ifs <;> first | rfl | (exfalso; omega))

/-- C9: on every exit path of a TCP or SMTP check invocation the opened
stream has been closed by the `finally` clause before the result (or the
escaping exception) reaches the caller; the only situation in which the
stream is not closed is a coroutine that never completes at all. -/
theorem streams_closed_on_every_exit (te : TcpEnv) (se : SmtpEnv) :
    (check_tcp te).2 = true
    ∧ ((check_smtp se).1 = Outcome.diverge ∨ (check_smtp se).2 = true) := by
  constructor
  · obtain ⟨c⟩ := te
    cases c <;>
      simp only [check_tcp, tcpBody, applyFinally] <;>
      first
        | rfl
        | (split_ifs <;> rfl)
  · cases h : smtpBody se with
    | ret r => exact Or.inr (by simp [check_smtp, h, applyFinally])
    | exn e => exact Or.inr (by simp [check_smtp, h, applyFinally])
    | diverge => exact Or.inl (by simp [check_smtp, h, applyFinally])

/-- C5: when connect succeeds within the budget and the greeting read, QUIT
write and QUIT-response read all complete, the result is decided by the
leading whitespace-separated token of the QUIT response: `221` gives
`(200, Connected in <elapsed>s)`, any other token gives
`(503, Got unexpected QUIT response <raw>)` with the raw response included,
and the stream is closed.  The environment fields are, in order, connect,
greeting read, QUIT write and QUIT-response read. -/
theorem smtp_result_decided_by_quit_token
    (t1 t2 t3 t4 : Nat) (g resp tok : String) (rest : List String)
    (hconn : t1 ≤ TIMEOUT_cs) (htok : pySplit resp = tok :: rest) :
    check_smtp ⟨.ok t1, .ok t2 g, .ok t3 (), .ok t4 resp⟩
      = (if tok = "221"
          then Outcome.result (200, "Connected in " ++ fmtDot2 (t1 + t2 + t3 + t4) ++ "s")
          else Outcome.result (503, "Got unexpected QUIT response " ++ pyByteRepr resp),
         true) := by
  have hconn' : ¬ TIMEOUT_cs < t1 := Nat.not_lt.mpr hconn
  simp only [check_smtp, smtpBody, if_neg hconn', htok]
  by_cases h : tok = "221" <;> simp [h, applyFinally]

/-- Witness for C5: a peer answering QUIT with `500 error` produces the 503
outcome with the raw line in the message. -/
theorem smtp_result_decided_by_quit_token_witness :
    check_smtp ⟨.ok 100, .ok 100 ("220 ok\r\n"), .ok 100 (), .ok 100 ("500 error\r\n")⟩
      = (if ("500" : String) = "221"
          then Outcome.result (200, "Connected in " ++ fmtDot2 (100 + 100 + 100 + 100) ++ "s")
          else Outcome.result (503,
            "Got unexpected QUIT response " ++ pyByteRepr ("500 error\r\n")),
         true) :=
  smtp_result_decided_by_quit_token 100 100 100 100 ("220 ok\r\n") ("500 error\r\n")
    ("500") (["error"]) (by decide) (by decide)

/-- C8: the spool checker's result.  When the collaborator reports the
service down the reason is the down-state message for the reply's service
name with the `since`, `until` and `:`-reason clauses each appended exactly
when the corresponding field is present (an empty-string reason counts as
absent, per Python truthiness); when it reports up the result is 200 with
the reply's reason or the empty string. -/
theorem spool_message_structure (sn : String) (up : Bool) (info : SpoolInfo) :
    check_spool sn up info =
      if up then (200, (info.reason).getD (""))
      else (503,
        ((("Service " ++ info.service ++ " in down state")
          ++ (match info.creation with
              | some c => " since " ++ fmtF6 c
              | none => ""))
          ++ (match info.expiration with
              | some e => " until " ++ fmtF6 e
              | none => ""))
          ++ (match info.reason with
              | some r => if r = "" then "" else ": " ++ r
              | none => "")) := by
  obtain ⟨svc, cr, ex, rs⟩ := info
  cases up
  · cases cr <;> cases ex <;> cases rs <;>
      simp only [check_spool] <;>
      (try split_ifs) <;>
      (first
        | rfl
        | (refine congrArg (Prod.mk 503) (String.ext ?_)
           simp [List.append_assoc]))
  · simp [check_spool]

/-- C7: the HTTP, HTTPS, TCP, MySQL and SMTP entry points are wrapped by the
cache layer — with a fresh entry under the key, each returns the stored
result, leaves the entries unchanged, and does not invoke the underlying
probe (flag `false`) — while the spool entry point has no cache wrapper:
called right after a previous spool call, it returns the answer computed
afresh from the current spool state (so a state change is reflected on the
very next call), always runs the probe (flag `true`) and leaves the cache
untouched. -/
theorem spool_uncached_others_cached
    (ttl now : Nat) (entries : CacheEntries) (key : String)
    (r : CheckResult) (created : Nat)
    (cfg : Config) (ver sn : String) (port : Nat) (cp qp : String)
    (hdrs : List (String × String)) (fetch : FetchOutcome)
    (tenv : TcpEnv) (menv : MysqlEnv) (senv : SmtpEnv)
    (sn2 : String) (up1 up2 : Bool) (i1 i2 : SpoolInfo)
    (hhit : alookup entries key = some (r, created))
    (hfresh : now < created + ttl) :
    check_http_cached cfg ver sn port cp qp hdrs fetch ttl now entries key
      = (.result r, entries, false)
    ∧ check_https_cached cfg ver sn port cp qp hdrs fetch ttl now entries key
      = (.result r, entries, false)
    ∧ check_tcp_cached tenv ttl now entries key = (.result r, entries, false)
    ∧ check_mysql_cached cfg menv ttl now entries key = (.result r, entries, false)
    ∧ check_smtp_cached senv ttl now entries key = (.result r, entries, false)
    ∧ check_spool_entry ttl now
        (check_spool_entry ttl now entries key sn2 up1 i1).2.1 key sn2 up2 i2
        = (.result (check_spool sn2 up2 i2), entries, true) := by
  refine ⟨?_, ?_, ?_, ?_, ?_, rfl⟩ <;>
    simp [check_http_cached, check_https_cached, check_tcp_cached,
          check_mysql_cached, check_smtp_cached, get_or_compute, hhit, hfresh]

/-- Witness for C7 at a concrete cache state holding a fresh entry and a
spool state that flips from up to down between two consecutive calls. -/
theorem spool_uncached_others_cached_witness :
    check_http_cached
        ⟨[], none, none, none⟩ ("1.0") ("svc") 80 ("/st") ("") [] (.response 200 ("ok"))
        10 3 [(("k"), ((200, "stored"), 0))] ("k")
      = (.result (200, "stored"), [(("k"), ((200, "stored"), 0))], false)
    ∧ check_https_cached
        ⟨[], none, none, none⟩ ("1.0") ("svc") 80 ("/st") ("") [] (.response 200 ("ok"))
        10 3 [(("k"), ((200, "stored"), 0))] ("k")
      = (.result (200, "stored"), [(("k"), ((200, "stored"), 0))], false)
    ∧ check_tcp_cached ⟨.hang⟩ 10 3 [(("k"), ((200, "stored"), 0))] ("k")
      = (.result (200, "stored"), [(("k"), ((200, "stored"), 0))], false)
    ∧ check_mysql_cached ⟨[], none, none, none⟩ ⟨.timeout⟩
        10 3 [(("k"), ((200, "stored"), 0))] ("k")
      = (.result (200, "stored"), [(("k"), ((200, "stored"), 0))], false)
    ∧ check_smtp_cached ⟨.hang, .hang, .hang, .hang⟩
        10 3 [(("k"), ((200, "stored"), 0))] ("k")
      = (.result (200, "stored"), [(("k"), ((200, "stored"), 0))], false)
    ∧ check_spool_entry 10 3
        (check_spool_entry 10 3 [(("k"), ((200, "stored"), 0))] ("k") ("s")
          true ⟨"s", none, none, none⟩).2.1 ("k") ("s") false ⟨"s", none, none, none⟩
      = (.result (check_spool ("s") false ⟨"s", none, none, none⟩),
         [(("k"), ((200, "stored"), 0))], true) :=
  spool_uncached_others_cached 10 3 [(("k"), ((200, "stored"), 0))] ("k")
    (200, "stored") 0 ⟨[], none, none, none⟩ ("1.0") ("svc") 80 ("/st") ("") []
    (.response 200 ("ok")) ⟨.hang⟩ ⟨.timeout⟩ ⟨.hang, .hang, .hang, .hang⟩
    ("s") true false ⟨"s", none, none, none⟩ ⟨"s", none, none, none⟩
    (by decide) (by decide)

/-- Bindings surviving the copy loop started from the User-Agent base entry
are the User-Agent default or an allow-listed caller header. -/
theorem headers_out_copied_lookup (hdrs : List (String × String))
    (hs : List String) (ver k v : String)
    (h : alookup (copyHeaders hdrs hs [(("User-Agent"), ("hastate " ++ ver))]) k
          = some v) :
    (k = "User-Agent" ∧ v = "hastate " ++ ver)
    ∨ (k ∈ hs ∧ alookup hdrs k = some v) := by
  rcases copyHeaders_lookup _ _ _ _ _ h with hbase | hcopy
  · simp only [alookup] at hbase
    split at hbase
    · next heq =>
      refine Or.inl ⟨heq.symm, ?_⟩
      exact (Option.some.injEq _ _ ▸ hbase).symm ▸ rfl
    · exact absurd hbase (by simp [alookup])
  · exact Or.inr hcopy

/-- The User-Agent key survives the copy loop and the service-name-header
overwrite. -/
theorem headers_out_ua_present (cfg : Config) (ver sn : String)
    (hdrs : List (String × String)) :
    (alookup (headers_out cfg ver sn hdrs) ("User-Agent")).isSome = true := by
  have hbase : (alookup [(("User-Agent"), ("hastate " ++ ver))]
      ("User-Agent")).isSome = true := by simp [alookup]
  have hcopied := copyHeaders_isSome hdrs cfg.http_headers_to_copy _ _ hbase
  unfold headers_out
  cases hs : cfg.service_name_header with
  | none => simpa using hcopied
  | some hh =>
    by_cases he : hh = ""
    · simpa [he] using hcopied
    · simpa [he] using alookup_aset_isSome _ hh ("User-Agent") sn hcopied

/-- Complete characterization of the bindings of the outbound header map. -/
theorem headers_out_lookup (cfg : Config) (ver sn : String)
    (hdrs : List (String × String)) (k v : String)
    (h : alookup (headers_out cfg ver sn hdrs) k = some v) :
    (k = "User-Agent" ∧ v = "hastate " ++ ver)
    ∨ (k ∈ cfg.http_headers_to_copy ∧ alookup hdrs k = some v)
    ∨ (∃ hh, cfg.service_name_header = some hh ∧ ¬ hh = "" ∧ k = hh ∧ v = sn) := by
  cases hs : cfg.service_name_header with
  | none =>
    simp only [headers_out, hs] at h
    rcases headers_out_copied_lookup _ _ _ _ _ h with hua | hcopy
    · exact Or.inl hua
    · exact Or.inr (Or.inl hcopy)
  | some hh =>
    simp only [headers_out, hs] at h
    by_cases he : hh = ""
    · rw [if_pos he] at h
      rcases headers_out_copied_lookup _ _ _ _ _ h with hua | hcopy
      · exact Or.inl hua
      · exact Or.inr (Or.inl hcopy)
    · rw [if_neg he, alookup_aset] at h
      by_cases hk : hh = k
      · rw [if_pos hk] at h
        exact Or.inr (Or.inr ⟨hh, rfl, he, hk.symm, (Option.some.injEq _ _ ▸ h).symm⟩)
      · rw [if_neg hk] at h
        rcases headers_out_copied_lookup _ _ _ _ _ h with hua | hcopy
        · exact Or.inl hua
        · exact Or.inr (Or.inl hcopy)

/-- A configured (truthy) service-name header is always bound to the
request's service name. -/
theorem headers_out_snh (cfg : Config) (ver sn : String)
    (hdrs : List (String × String)) (hh : String)
    (h : cfg.service_name_header = some hh) (hne : ¬ hh = "") :
    alookup (headers_out cfg ver sn hdrs) hh = some sn := by
  simp only [headers_out, h, if_neg hne]
  rw [alookup_aset]
  simp

/-- C10: on every HTTP/HTTPS check, the outbound request always carries a
User-Agent header; every header of the request is either the default
User-Agent value `hastate <version>`, a caller header copied under an
allow-listed name, or the configured service-name header bound to the
request's service name; and a configured (non-empty) service-name header is
always bound to the service name. -/
theorem http_request_headers_policy (cfg : Config) (ver sn : String)
    (port : Nat) (cp qp : String) (hdrs : List (String × String))
    (ssl : Bool) (fetch : FetchOutcome) :
    ((alookup (check_http_https cfg ver sn port cp qp hdrs ssl fetch).1.headers
        ("User-Agent")).isSome = true)
    ∧ (∀ k v,
        alookup (check_http_https cfg ver sn port cp qp hdrs ssl fetch).1.headers k
          = some v →
        (k = "User-Agent" ∧ v = "hastate " ++ ver)
        ∨ (k ∈ cfg.http_headers_to_copy ∧ alookup hdrs k = some v)
        ∨ (∃ hh, cfg.service_name_header = some hh ∧ ¬ hh = "" ∧ k = hh ∧ v = sn))
    ∧ (∀ hh, cfg.service_name_header = some hh → ¬ hh = "" →
        alookup (check_http_https cfg ver sn port cp qp hdrs ssl fetch).1.headers hh
          = some sn) := by
  have hreq : (check_http_https cfg ver sn port cp qp hdrs ssl fetch).1.headers
      = headers_out cfg ver sn hdrs := rfl
  refine ⟨?_, ?_, ?_⟩
  · rw [hreq]; exact headers_out_ua_present cfg ver sn hdrs
  · intro k v h
    rw [hreq] at h
    exact headers_out_lookup cfg ver sn hdrs k v h
  · intro hh h hne
    rw [hreq]
    exact headers_out_snh cfg ver sn hdrs hh h hne

/-- Witness for C10: with allow-list `X-Copy` and service-name header
`X-Svc`, a concrete request binds `X-Svc` to the service name. -/
theorem http_request_headers_policy_witness :
    alookup (check_http_https ⟨[("X-Copy" : String)], some ("X-Svc"), none, none⟩
        ("1.0") ("mysvc") 80 ("/st") ("")
        [(("X-Copy"), ("val")), (("Evil"), ("e"))] false
        (.response 200 ("ok"))).1.headers ("X-Svc") = some ("mysvc") :=
  (http_request_headers_policy ⟨[("X-Copy" : String)], some ("X-Svc"), none, none⟩
      ("1.0") ("mysvc") 80 ("/st") ("")
      [(("X-Copy"), ("val")), (("Evil"), ("e"))] false
      (.response 200 ("ok"))).2.2 ("X-Svc") rfl (by decide)

end Hacheck
